import Mathlib

/-!
Shallow embedding of the UBL invoice builder of the efactura-anaf-ts-sdk
repository (src/dist/ubl/InvoiceBuilder.js, src/src/AnafClient.ts,
src/dist/esm/errors.js, src/dist/constants.js).

JavaScript numbers are modelled as exact rationals (ℚ); `Number.toFixed(2)`
is modelled as rounding to the nearest multiple of 1/100 with ties toward
+∞ (the tie rule of the ECMAScript `toFixed` specification), followed by
fixed two-decimal rendering.  Optional / possibly-undefined JavaScript
values are modelled as `Option`; thrown errors are modelled with `Except`.
-/

namespace EFactura

/-- The error hierarchy of `errors.js` (`AnafSdkError` and its subclasses),
modelled as one inductive with one constructor per subclass. -/
inductive AnafSdkError where
  | validation (message : String)
  | notFound (message : String)
  | authentication (message : String)
  | api (message : String)
  | xmlParsing (message : String)
  | unexpectedResponse (message : String)
deriving DecidableEq, Repr

/-- The `.message` property of an `AnafSdkError`. -/
def AnafSdkError.message : AnafSdkError → String
  | .validation m => m
  | .notFound m => m
  | .authentication m => m
  | .api m => m
  | .xmlParsing m => m
  | .unexpectedResponse m => m

deriving instance DecidableEq for Except

/-- `DEFAULT_CURRENCY` of constants.js. -/
def DEFAULT_CURRENCY : String := "RON"

/-- `DEFAULT_COUNTRY_CODE` of constants.js. -/
def DEFAULT_COUNTRY_CODE : String := "RO"

/-- `DEFAULT_UNIT_CODE` of constants.js. -/
def DEFAULT_UNIT_CODE : String := "EA"

/-- `UBL_CUSTOMIZATION_ID` of constants.js. -/
def UBL_CUSTOMIZATION_ID : String :=
  "urn:cen.eu:en16931:2017#compliant#urn:efactura.mfinante.ro:CIUS-RO:1.0.1"

/-- `INVOICE_TYPE_CODE` of constants.js. -/
def INVOICE_TYPE_CODE : String := "380"

/-- Round to the nearest integer, ties toward +∞ (the ECMAScript `toFixed`
tie rule): `⌊x + 1/2⌋`, written with the executable `Rat.floor`. -/
def jsRound (x : ℚ) : ℤ := (x + 1 / 2).floor

/-- `parseFloat(x.toFixed(2))` on an exact rational: round to 2 decimals. -/
def round2 (x : ℚ) : ℚ := (jsRound (x * 100) : ℚ) / 100

/-- Whitespace characters removed by `String.prototype.trim`: the
ECMAScript WhiteSpace set (TAB, VT, FF, SP, NBSP, ZWNBSP and the Unicode
Space_Separator category — U+1680, U+2000–U+200A, U+202F, U+205F, U+3000)
together with the LineTerminator set (LF, CR, LS, PS). -/
def isWsChar (c : Char) : Bool :=
  c.toNat = 0x9 || c.toNat = 0xA || c.toNat = 0xB || c.toNat = 0xC ||
  c.toNat = 0xD || c.toNat = 0x20 || c.toNat = 0xA0 || c.toNat = 0x1680 ||
  (0x2000 ≤ c.toNat && c.toNat ≤ 0x200A) ||
  c.toNat = 0x2028 || c.toNat = 0x2029 || c.toNat = 0x202F ||
  c.toNat = 0x205F || c.toNat = 0x3000 || c.toNat = 0xFEFF

/-- `s.trim() === ""`: every character is whitespace. -/
def trimsToEmpty (s : String) : Bool := s.toList.all isWsChar

/-- The JavaScript test `!s?.trim()` on a possibly-undefined string:
true when the value is absent or trims to the empty string. -/
def isBlank : Option String → Bool
  | none => true
  | some s => trimsToEmpty s

/-- JavaScript truthiness of a possibly-undefined string
(`!!s`: false for `undefined` and for `""`). -/
def jsTruthyStr : Option String → Bool
  | none => false
  | some s => s != ""

/-- The JavaScript idiom `s || dflt` on a possibly-undefined string. -/
def jsStrOr (s : Option String) (dflt : String) : String :=
  match s with
  | some v => if v = "" then dflt else v
  | none => dflt

/-- `Address` of types.ts.  All fields can be absent at runtime
(the validator checks them), hence `Option`. -/
structure Address where
  street : Option String
  city : Option String
  postalZone : Option String
  county : Option String
  countryCode : Option String
deriving DecidableEq, Repr

/-- `Party` of types.ts. -/
structure Party where
  registrationName : Option String
  companyId : Option String
  vatNumber : Option String
  address : Option Address
deriving DecidableEq, Repr

/-- `InvoiceLine` of types.ts.  `id` is modelled after `id?.toString()`,
i.e. already as an optional string. -/
structure InvoiceLine where
  id : Option String
  description : Option String
  quantity : ℚ
  unitCode : Option String
  unitPrice : ℚ
  taxPercent : Option ℚ
deriving DecidableEq, Repr

/-- `InvoiceInput` of types.ts.  Dates are modelled as the strings they
format to (`formatDateForAnaf` output), since no claim concerns date
formatting itself. -/
structure InvoiceInput where
  invoiceNumber : Option String
  issueDate : Option String
  dueDate : Option String
  currency : Option String
  supplier : Option Party
  customer : Option Party
  lines : Option (List InvoiceLine)
  paymentIban : Option String
  isSupplierVatPayer : Option Bool
deriving DecidableEq, Repr

/-- `validateAddress` of InvoiceBuilder.js.  The sequence of guarded
`throw`s is written as the equivalent explicit if-else chain (each throw
ends the function). -/
def validateAddress (address : Address) (role : String) :
    Except AnafSdkError Unit :=
  if isBlank address.street then
    .error (.validation (role ++ " street address is required"))
  else if isBlank address.city then
    .error (.validation (role ++ " city is required"))
  else if isBlank address.postalZone then
    .error (.validation (role ++ " postal zone is required"))
  else .ok ()

/-- `validateParty` of InvoiceBuilder.js. -/
def validateParty (party : Party) (role : String) :
    Except AnafSdkError Unit :=
  if isBlank party.registrationName then
    .error (.validation (role ++ " registration name is required"))
  else if isBlank party.companyId then
    .error (.validation (role ++ " company ID is required"))
  else
    match party.address with
    | none => .error (.validation (role ++ " address is required"))
    | some address => validateAddress address role

/-- `validateLine` of InvoiceBuilder.js (`index` is 0-based; messages are
1-based).  The JavaScript `typeof` checks are vacuous in the embedding
because quantities are rationals by type. -/
def validateLine (line : InvoiceLine) (index : Nat) :
    Except AnafSdkError Unit :=
  if isBlank line.description then
    .error (.validation ("Line " ++ toString (index + 1) ++ ": Description is required"))
  else if line.quantity ≤ 0 then
    .error (.validation ("Line " ++ toString (index + 1) ++ ": Quantity must be a positive number"))
  else if line.unitPrice < 0 then
    .error (.validation ("Line " ++ toString (index + 1) ++ ": Unit price must be a non-negative number"))
  else
    match line.taxPercent with
    | some t =>
        if t < 0 ∨ t > 100 then
          .error (.validation ("Line " ++ toString (index + 1) ++ ": Tax percent must be between 0 and 100"))
        else .ok ()
    | none => .ok ()

/-- `input.lines.forEach((line, index) => validateLine(line, index))`:
the first line error aborts the whole validation. -/
def validateLines : List InvoiceLine → Nat → Except AnafSdkError Unit
  | [], _ => .ok ()
  | line :: rest, index =>
      match validateLine line index with
      | .error e => .error e
      | .ok _ => validateLines rest (index + 1)

/-- `validateInvoiceInput` of InvoiceBuilder.js; `none` models a missing
(`undefined`/`null`) argument. -/
def validateInvoiceInput : Option InvoiceInput → Except AnafSdkError Unit
  | none => .error (.validation "Invoice input data is required")
  | some input =>
      if isBlank input.invoiceNumber then
        .error (.validation "Invoice number is required")
      else if input.issueDate.isNone then
        .error (.validation "Issue date is required")
      else
        match input.supplier with
        | none => .error (.validation "Supplier information is required")
        | some supplier =>
          match validateParty supplier "Supplier" with
          | .error e => .error e
          | .ok _ =>
            match input.customer with
            | none => .error (.validation "Customer information is required")
            | some customer =>
              match validateParty customer "Customer" with
              | .error e => .error e
              | .ok _ =>
                match input.lines with
                | none => .error (.validation "Invoice lines array is required")
                | some lines => validateLines lines 0

/-- `calculateLineExtension` of InvoiceBuilder.js: the unit price is rounded
to 2 decimals first, then the product is rounded again. -/
def calculateLineExtension (line : InvoiceLine) : ℚ :=
  round2 (line.quantity * round2 line.unitPrice)

/-- `line.taxPercent || 0`. -/
def effectiveTaxPercent (line : InvoiceLine) : ℚ :=
  line.taxPercent.getD 0

/-- The tax-category decision of InvoiceBuilder.js (used both in
`groupLinesByTax` and per emitted invoice line). -/
def taxCategoryId (isSupplierVatPayer : Bool) (taxPercent : ℚ) : String :=
  if ¬ isSupplierVatPayer then "O"
  else if taxPercent > 0 then "S"
  else "Z"

/-- The exemption-reason code assigned alongside the category decision:
`'VATEX-EU-O'` exactly when the supplier is not a VAT payer. -/
def exemptionReasonFor (isSupplierVatPayer : Bool) : Option String :=
  if ¬ isSupplierVatPayer then some "VATEX-EU-O" else none

/-- The `TaxGroup` accumulator record of InvoiceBuilder.js. -/
structure TaxGroup where
  categoryId : String
  percent : ℚ
  taxableAmount : ℚ
  taxAmount : ℚ
  exemptionReasonCode : Option String
deriving DecidableEq, Repr

/-- `round2(lineExtension * (taxPercent / 100))` for one line. -/
def lineTaxAmount (line : InvoiceLine) : ℚ :=
  round2 (calculateLineExtension line * (effectiveTaxPercent line / 100))

/-- The fresh group inserted for a line whose `(categoryId, percent)` key is
not yet in the map. -/
def initialGroup (isSupplierVatPayer : Bool) (line : InvoiceLine) : TaxGroup :=
  { categoryId := taxCategoryId isSupplierVatPayer (effectiveTaxPercent line)
    percent := effectiveTaxPercent line
    taxableAmount := calculateLineExtension line
    taxAmount := lineTaxAmount line
    exemptionReasonCode := exemptionReasonFor isSupplierVatPayer }

/-- One step of the `taxGroups` map update: accumulate into the existing
group with the same `(categoryId, percent)` key (re-rounding both amounts),
or append a new group.  The insertion-ordered `Map` is modelled as a list. -/
def insertLineGroup : List TaxGroup → TaxGroup → List TaxGroup
  | [], g => [g]
  | h :: t, g =>
      if h.categoryId = g.categoryId ∧ h.percent = g.percent then
        { h with
            taxableAmount := round2 (h.taxableAmount + g.taxableAmount)
            taxAmount := round2 (h.taxAmount + g.taxAmount) } :: t
      else h :: insertLineGroup t g

/-- `groupLinesByTax` of InvoiceBuilder.js. -/
def groupLinesByTax (lines : List InvoiceLine) (isSupplierVatPayer : Bool) :
    List TaxGroup :=
  lines.foldl (fun gs line => insertLineGroup gs (initialGroup isSupplierVatPayer line)) []

/-- The decimal digit character for `n % 10`. -/
def digitChar (n : Nat) : Char := Char.ofNat (48 + n)

/-- Accumulator loop producing the decimal digits of `n` in front of `acc`.
Structural recursion on explicit fuel (always called with `n ≤ fuel`) so
that the definition reduces definitionally. -/
def natCharsCore : Nat → Nat → List Char → List Char
  | _, 0, acc => acc
  | 0, _ + 1, acc => acc
  | fuel + 1, n + 1, acc =>
      natCharsCore fuel ((n + 1) / 10) (digitChar ((n + 1) % 10) :: acc)

/-- Decimal rendering of a natural number (JavaScript `Number.toString` on a
non-negative integer). -/
def natChars (n : Nat) : List Char :=
  if n = 0 then ['0'] else natCharsCore n n []

/-- String form of `natChars`. -/
def natStr (n : Nat) : String := String.mk (natChars n)

/-- Exactly two decimal digits of `m` (`m < 100` at every use). -/
def twoDigitChars (m : Nat) : List Char :=
  [digitChar (m / 10 % 10), digitChar (m % 10)]

/-- Character-level `x.toFixed(2)`: optional minus sign, the integral part in
decimal, a dot, and exactly two fractional digits. -/
def toFixed2Chars (x : ℚ) : List Char :=
  let c : ℤ := jsRound (x * 100)
  let n : Nat := c.natAbs
  (if c < 0 then ['-'] else []) ++ natChars (n / 100) ++ '.' :: twoDigitChars (n % 100)

/-- `x.toFixed(2)` as a string. -/
def toFixed2 (x : ℚ) : String := String.mk (toFixed2Chars x)

/-- The smallest number of fractional decimal digits (searched up to 20, the
double-precision maximum) with which `q` has an exact decimal expansion. -/
def decScale (q : ℚ) : Option Nat :=
  (List.range 21).find? (fun k => (q * (10 : ℚ) ^ k).den = 1)

/-- Left-pad with `'0'` to length `k`. -/
def padZeros (cs : List Char) (k : Nat) : List Char :=
  List.replicate (k - cs.length) '0' ++ cs

/-- JavaScript `Number.prototype.toString` on a number with a finite decimal
expansion (all values reachable in the builder): shortest decimal form, no
trailing fractional zeros, integers without a decimal point.  Rationals with
no finite expansion cannot arise from double-precision inputs; they fall back
to the raw rational rendering. -/
def jsNumToString (q : ℚ) : String :=
  match decScale q with
  | some 0 =>
      String.mk ((if q.num < 0 then ['-'] else []) ++ natChars q.num.natAbs)
  | some (k + 1) =>
      let m : ℤ := (q * (10 : ℚ) ^ (k + 1)).num
      let n : Nat := m.natAbs
      String.mk ((if m < 0 then ['-'] else []) ++ natChars (n / 10 ^ (k + 1)) ++
        '.' :: padZeros (natChars (n % 10 ^ (k + 1))) (k + 1))
  | none => toString q

/-- `true` for the characters `'0'`–`'9'`. -/
def isDigitChar (c : Char) : Bool := 48 ≤ c.toNat && c.toNat ≤ 57

/-- Numeric value of a digit character, `none` for non-digits. -/
def digitVal? (c : Char) : Option Nat :=
  if isDigitChar c then some (c.toNat - 48) else none

/-- Value of a digit string read most-significant first. -/
def charsVal (cs : List Char) : Nat :=
  cs.foldl (fun a c => a * 10 + (c.toNat - 48)) 0

/-- Strict decimal natural-number parser: requires a non-empty all-digit
string. -/
def parseNatChars (cs : List Char) : Option Nat :=
  if cs ≠ [] ∧ cs.all isDigitChar then some (charsVal cs) else none

/-- Parser for the unsigned fixed two-decimal format `digits.dd`. -/
def parsePosFixed2Chars (cs : List Char) : Option ℚ :=
  match cs.dropWhile (fun c => c != '.') with
  | ['.', d1, d2] =>
      match parseNatChars (cs.takeWhile (fun c => c != '.')), digitVal? d1, digitVal? d2 with
      | some i, some a, some b => some ((i : ℚ) + ((10 * a + b : ℕ) : ℚ) / 100)
      | _, _, _ => none
  | _ => none

/-- Parser for the signed fixed two-decimal format (an empty string parses
to `none` either way, since the unsigned parser rejects it). -/
def parseFixed2Chars (cs : List Char) : Option ℚ :=
  match cs with
  | [] => none
  | c :: rest =>
      if c = '-' then (parsePosFixed2Chars rest).map (fun q => -q)
      else parsePosFixed2Chars (c :: rest)

/-- Parse a string in strict fixed two-decimal notation (optional minus,
one or more digits, a dot, exactly two digits) back to a rational; `none`
for anything else — in particular for scientific notation, locale
separators, or integers without a fractional part. -/
def parseFixed2 (s : String) : Option ℚ := parseFixed2Chars s.toList

/-- The text contents of one emitted `cac:TaxSubtotal` element. -/
structure TaxSubtotalXml where
  taxableAmount : String
  taxAmount : String
  categoryId : String
  percent : String
  exemptionReasonCode : Option String
deriving DecidableEq, Repr

/-- The text contents of the emitted `cac:LegalMonetaryTotal` element. -/
structure MonetaryTotalXml where
  lineExtensionAmount : String
  taxExclusiveAmount : String
  taxInclusiveAmount : String
  payableAmount : String
deriving DecidableEq, Repr

/-- The text contents of one emitted `cac:InvoiceLine` element. -/
structure InvoiceLineXml where
  lineId : String
  invoicedQuantity : String
  unitCode : String
  lineExtensionAmount : String
  description : String
  classifiedTaxCategoryId : String
  classifiedTaxPercent : String
  priceAmount : String
deriving DecidableEq, Repr

/-- The emitted invoice document: the text values placed into the XML tree
by `buildInvoiceXml`, in emission order (party blocks and fixed literal
elements such as the `"VAT"` scheme ids are constant and carry no computed
values relevant to the claims). -/
structure InvoiceXml where
  customizationID : String
  invoiceNumber : String
  issueDate : String
  dueDate : String
  invoiceTypeCode : String
  currency : String
  taxAmountTotal : String
  taxSubtotals : List TaxSubtotalXml
  legalMonetaryTotal : MonetaryTotalXml
  invoiceLines : List InvoiceLineXml
deriving DecidableEq, Repr

/-- `input.isSupplierVatPayer ?? !!input.supplier.vatNumber`. -/
def effectiveIsSupplierVatPayer (input : InvoiceInput) : Bool :=
  match input.isSupplierVatPayer with
  | some b => b
  | none => jsTruthyStr (input.supplier.bind Party.vatNumber)

/-- One `cac:TaxSubtotal` emitted from a tax group; the exemption-reason
element is emitted only when the code is truthy (`if (group.exemptionReasonCode)`). -/
def buildTaxSubtotal (group : TaxGroup) : TaxSubtotalXml :=
  { taxableAmount := toFixed2 group.taxableAmount
    taxAmount := toFixed2 group.taxAmount
    categoryId := group.categoryId
    percent := toFixed2 group.percent
    exemptionReasonCode :=
      match group.exemptionReasonCode with
      | some code => if code = "" then none else some code
      | none => none }

/-- The synthetic zero-valued subtotal emitted when there are no tax groups. -/
def defaultTaxSubtotal : TaxSubtotalXml :=
  { taxableAmount := "0.00"
    taxAmount := "0.00"
    categoryId := "S"
    percent := "0.00"
    exemptionReasonCode := none }

/-- One `cac:InvoiceLine` element (`index` is the 0-based position). -/
def buildInvoiceLineXml (isSupplierVatPayer : Bool) (index : Nat)
    (line : InvoiceLine) : InvoiceLineXml :=
  let taxPercent := effectiveTaxPercent line
  let roundedUnitPrice := round2 line.unitPrice
  { lineId := jsStrOr line.id (natStr (index + 1))
    invoicedQuantity := jsNumToString line.quantity
    unitCode := jsStrOr line.unitCode DEFAULT_UNIT_CODE
    lineExtensionAmount := toFixed2 (calculateLineExtension line)
    description := line.description.getD ""
    classifiedTaxCategoryId := taxCategoryId isSupplierVatPayer taxPercent
    classifiedTaxPercent := toFixed2 taxPercent
    priceAmount := toFixed2 roundedUnitPrice }

/-- The body of `buildInvoiceXml` after validation has passed: defaults,
tax grouping, totals, and tree assembly. -/
def assembleInvoice (input : InvoiceInput) : InvoiceXml :=
  let currency := jsStrOr input.currency DEFAULT_CURRENCY
  let isVat := effectiveIsSupplierVatPayer input
  let issueDate := input.issueDate.getD ""
  let dueDate := jsStrOr input.dueDate issueDate
  let lines := input.lines.getD []
  let taxGroups := if lines.length > 0 then groupLinesByTax lines isVat else []
  let totalTaxableAmount := (taxGroups.map TaxGroup.taxableAmount).sum
  let totalTaxAmount := (taxGroups.map TaxGroup.taxAmount).sum
  let grandTotal := round2 (totalTaxableAmount + totalTaxAmount)
  { customizationID := UBL_CUSTOMIZATION_ID
    invoiceNumber := input.invoiceNumber.getD ""
    issueDate := issueDate
    dueDate := dueDate
    invoiceTypeCode := INVOICE_TYPE_CODE
    currency := currency
    taxAmountTotal := toFixed2 totalTaxAmount
    taxSubtotals :=
      if taxGroups.length > 0 then taxGroups.map buildTaxSubtotal
      else [defaultTaxSubtotal]
    legalMonetaryTotal :=
      { lineExtensionAmount := toFixed2 totalTaxableAmount
        taxExclusiveAmount := toFixed2 totalTaxableAmount
        taxInclusiveAmount := toFixed2 grandTotal
        payableAmount := toFixed2 grandTotal }
    invoiceLines := lines.mapIdx (fun index line => buildInvoiceLineXml isVat index line) }

/-- `buildInvoiceXml` of InvoiceBuilder.js: validate, then assemble.  The
`(ok, none)` case is unreachable (validation rejects `none`); its repeated
error keeps the function total. -/
def buildInvoiceXml (input : Option InvoiceInput) : Except AnafSdkError InvoiceXml :=
  match validateInvoiceInput input, input with
  | .error e, _ => .error e
  | .ok _, none => .error (.validation "Invoice input data is required")
  | .ok _, some inp => .ok (assembleInvoice inp)

/-- Result record of `tryCatch` (src/unnamed/part_009) in its synchronous
branch: exactly one of `data` / `error` is set. -/
structure TryCatchResult (α : Type) where
  data : Option α
  error : Option AnafSdkError
deriving DecidableEq, Repr

/-- The synchronous branch of `tryCatch`: run the computation, return
`{data, error: null}` on success and `{data: null, error}` on a thrown
error (any thrown error is caught). -/
def tryCatch (fn : Except AnafSdkError α) : TryCatchResult α :=
  match fn with
  | .ok data => { data := some data, error := none }
  | .error e => { data := none, error := some e }

/-- `AnafClient.generateInvoiceXml`: run the builder under `tryCatch`; any
error is re-thrown as an `AnafValidationError` with the original message
appended.  The `(none, none)` branch is unreachable by construction of
`tryCatch`. -/
def generateInvoiceXml (invoiceData : Option InvoiceInput) :
    Except AnafSdkError InvoiceXml :=
  let r := tryCatch (buildInvoiceXml invoiceData)
  match r.error, r.data with
  | some error, _ =>
      .error (.validation ("Failed to generate invoice XML: " ++ error.message))
  | none, some data => .ok data
  | none, none =>
      .error (.validation "Failed to generate invoice XML: undefined")

/-- `x` is a whole number of hundredths (the shape of every amount that has
passed through `round2`). -/
def IsCents (x : ℚ) : Prop := ∃ n : ℤ, x = (n : ℚ) / 100

/-- The map key of a tax group, as a pair instead of the formatted string
`"${categoryId}-${taxPercent}"` (the string is injective in the pair). -/
def groupKey (g : TaxGroup) : String × ℚ := (g.categoryId, g.percent)

/-- The map key a line is routed to. -/
def lineKey (isSupplierVatPayer : Bool) (line : InvoiceLine) : String × ℚ :=
  (taxCategoryId isSupplierVatPayer (effectiveTaxPercent line),
   effectiveTaxPercent line)

/-- Specification-level list of distinct keys in first-seen order. -/
def firstSeenKeys (ks : List (String × ℚ)) : List (String × ℚ) :=
  ks.foldl (fun acc k => if k ∈ acc then acc else acc ++ [k]) []

/-- Invariant of every group produced by `groupLinesByTax`: the category and
exemption code follow the VAT-payer decision, and both amounts are whole
numbers of hundredths. -/
def GroupWF (isSupplierVatPayer : Bool) (g : TaxGroup) : Prop :=
  g.categoryId = taxCategoryId isSupplierVatPayer g.percent ∧
  g.exemptionReasonCode = exemptionReasonFor isSupplierVatPayer ∧
  IsCents g.taxableAmount ∧ IsCents g.taxAmount

/-- Sample address used by the concrete instances below. -/
def exAddress : Address :=
  { street := some "Str. Exemplu 1", city := some "Bucuresti",
    postalZone := some "010101", county := none, countryCode := none }

/-- Sample supplier (holds a VAT number). -/
def exSupplier : Party :=
  { registrationName := some "Furnizor SRL", companyId := some "RO12345678",
    vatNumber := some "RO12345678", address := some exAddress }

/-- Sample customer (no VAT number). -/
def exCustomer : Party :=
  { registrationName := some "Client SRL", companyId := some "RO87654321",
    vatNumber := none,
    address := some { street := some "Str. Client 2", city := some "Cluj-Napoca",
                      postalZone := some "400001", county := none, countryCode := none } }

/-- The rounding-law line of the specification: quantity 3, unit price
33.333333, tax 19 %. -/
def exLine1 : InvoiceLine :=
  { id := none, description := some "Produs", quantity := 3, unitCode := none,
    unitPrice := 33.333333, taxPercent := some 19 }

/-- A 9 % line. -/
def exLine9 : InvoiceLine :=
  { id := none, description := some "Serviciu", quantity := 1, unitCode := none,
    unitPrice := 100, taxPercent := some 9 }

/-- A second 19 % line (forces accumulation into an existing group). -/
def exLine19b : InvoiceLine :=
  { id := none, description := some "Alt produs", quantity := 2, unitCode := none,
    unitPrice := 10.5, taxPercent := some 19 }

/-- A zero-percent line. -/
def exLineZero : InvoiceLine :=
  { id := none, description := some "Scutit", quantity := 1, unitCode := none,
    unitPrice := 50, taxPercent := none }

/-- Valid single-line input exercising the two-stage rounding example. -/
def exInput : InvoiceInput :=
  { invoiceNumber := some "INV-001", issueDate := some "2024-01-15",
    dueDate := none, currency := none, supplier := some exSupplier,
    customer := some exCustomer, lines := some [exLine1],
    paymentIban := none, isSupplierVatPayer := none }

/-- Valid three-line input with two distinct tax rates (19 %, 9 %, 19 %). -/
def exInputMulti : InvoiceInput :=
  { exInput with invoiceNumber := some "INV-002",
                 lines := some [exLine1, exLine9, exLine19b] }

/-- Valid input whose supplier is explicitly not a VAT payer. -/
def exInputNoVat : InvoiceInput :=
  { exInput with invoiceNumber := some "INV-003",
                 lines := some [exLine1, exLineZero],
                 isSupplierVatPayer := some false }

/-- Valid input with an empty line list. -/
def exInputNoLines : InvoiceInput :=
  { exInput with invoiceNumber := some "INV-004", lines := some [] }

/-- Input that is simultaneously missing the invoice number and the
supplier. -/
def exInputMissing : InvoiceInput :=
  { invoiceNumber := none, issueDate := none, dueDate := none, currency := none,
    supplier := none, customer := none, lines := none, paymentIban := none,
    isSupplierVatPayer := none }

/-- Input whose invoice number is present but whitespace-only. -/
def exInputBlankNumber : InvoiceInput :=
  { exInput with invoiceNumber := some "   " }

/-! ### Rounding lemmas -/

theorem ratFloor_eq_floor (q : ℚ) : q.floor = ⌊q⌋ :=
  (Rat.floor_def' q).trans Rat.floor_def.symm

theorem jsRound_eq_round (x : ℚ) : jsRound x = round x := by
  rw [jsRound, ratFloor_eq_floor, round_eq]

theorem round2_eq (x : ℚ) : round2 x = ((round (x * 100) : ℤ) : ℚ) / 100 := by
  rw [round2, jsRound_eq_round]

theorem isCents_round2 (x : ℚ) : IsCents (round2 x) :=
  ⟨round (x * 100), round2_eq x⟩

theorem IsCents.round2_self {x : ℚ} (h : IsCents x) : round2 x = x := by
  obtain ⟨n, rfl⟩ := h
  rw [round2_eq]
  have h100 : (n : ℚ) / 100 * 100 = (n : ℚ) := by
    field_simp
  rw [h100, round_intCast]

theorem IsCents.add {x y : ℚ} (hx : IsCents x) (hy : IsCents y) :
    IsCents (x + y) := by
  obtain ⟨m, rfl⟩ := hx
  obtain ⟨n, rfl⟩ := hy
  exact ⟨m + n, by push_cast; ring⟩

theorem isCents_zero : IsCents 0 := ⟨0, by norm_num⟩

theorem isCents_sum {l : List ℚ} (h : ∀ x ∈ l, IsCents x) : IsCents l.sum := by
  induction l with
  | nil => simpa using isCents_zero
  | cons a t ih =>
      rw [List.sum_cons]
      exact (h a (by simp)).add (ih fun x hx => h x (by simp [hx]))

theorem isCents_calculateLineExtension (line : InvoiceLine) :
    IsCents (calculateLineExtension line) := isCents_round2 _

/-! ### Digit strings -/

theorem digitChar_toNat {d : Nat} (h : d < 10) : (digitChar d).toNat = 48 + d := by
  interval_cases d <;> decide

theorem isDigitChar_digitChar {d : Nat} (h : d < 10) :
    isDigitChar (digitChar d) = true := by
  interval_cases d <;> decide

theorem digitVal?_digitChar {d : Nat} (h : d < 10) :
    digitVal? (digitChar d) = some d := by
  interval_cases d <;> decide

theorem digit_bne_dot {c : Char} (h : isDigitChar c = true) : (c != '.') = true := by
  rcases eq_or_ne c '.' with rfl | hne
  · exact absurd h (by decide)
  · simpa using hne

theorem digit_ne_minus {c : Char} (h : isDigitChar c = true) : c ≠ '-' := by
  rcases eq_or_ne c '-' with rfl | hne
  · exact absurd h (by decide)
  · exact hne

theorem natCharsCore_append :
    ∀ fuel n acc, n ≤ fuel →
      natCharsCore fuel n acc = natCharsCore fuel n [] ++ acc := by
  intro fuel
  induction fuel with
  | zero =>
      intro n acc h
      have hn : n = 0 := Nat.le_zero.mp h
      subst hn
      simp [natCharsCore]
  | succ f ih =>
      intro n acc h
      cases n with
      | zero => simp [natCharsCore]
      | succ m =>
          have hd : (m + 1) / 10 < m + 1 := Nat.div_lt_self (Nat.succ_pos m) (by norm_num)
          have hle : (m + 1) / 10 ≤ f := by omega
          show natCharsCore f ((m + 1) / 10) (digitChar ((m + 1) % 10) :: acc) = _
          rw [ih _ _ hle]
          conv_rhs =>
            rw [show natCharsCore (f + 1) (m + 1) [] =
              natCharsCore f ((m + 1) / 10) [digitChar ((m + 1) % 10)] from rfl]
            rw [ih _ _ hle]
          simp

theorem charsVal_append_singleton (cs : List Char) (c : Char) :
    charsVal (cs ++ [c]) = charsVal cs * 10 + (c.toNat - 48) := by
  simp [charsVal, List.foldl_append]

theorem natCharsCore_spec :
    ∀ fuel n, n ≤ fuel →
      (natCharsCore fuel n []).all isDigitChar = true ∧
      charsVal (natCharsCore fuel n []) = n ∧
      (0 < n → natCharsCore fuel n [] ≠ []) := by
  intro fuel
  induction fuel with
  | zero =>
      intro n h
      have hn : n = 0 := Nat.le_zero.mp h
      subst hn
      simp [natCharsCore, charsVal]
  | succ f ih =>
      intro n h
      cases n with
      | zero => simp [natCharsCore, charsVal]
      | succ m =>
          have hd : (m + 1) / 10 < m + 1 := Nat.div_lt_self (Nat.succ_pos m) (by norm_num)
          have hle : (m + 1) / 10 ≤ f := by omega
          obtain ⟨hall, hval, _⟩ := ih _ hle
          have hmod : (m + 1) % 10 < 10 := Nat.mod_lt _ (by norm_num)
          have hstep : natCharsCore (f + 1) (m + 1) [] =
              natCharsCore f ((m + 1) / 10) [] ++ [digitChar ((m + 1) % 10)] := by
            show natCharsCore f ((m + 1) / 10) [digitChar ((m + 1) % 10)] = _
            rw [natCharsCore_append _ _ _ hle]
          refine ⟨?_, ?_, ?_⟩
          · rw [hstep]
            simp only [List.all_append, hall, Bool.true_and, List.all_cons, List.all_nil,
              Bool.and_true]
            exact isDigitChar_digitChar hmod
          · rw [hstep, charsVal_append_singleton, hval, digitChar_toNat hmod]
            omega
          · intro _
            rw [hstep]
            simp

theorem natChars_all_digits (n : Nat) : (natChars n).all isDigitChar = true := by
  rw [natChars]
  split
  · decide
  · exact (natCharsCore_spec n n (le_refl n)).1

theorem charsVal_natChars (n : Nat) : charsVal (natChars n) = n := by
  rw [natChars]
  split
  · next h => subst h; decide
  · exact (natCharsCore_spec n n (le_refl n)).2.1

theorem natChars_ne_nil (n : Nat) : natChars n ≠ [] := by
  rw [natChars]
  split
  · simp
  · next h => exact (natCharsCore_spec n n (le_refl n)).2.2 (Nat.pos_of_ne_zero h)

theorem parseNatChars_natChars (n : Nat) : parseNatChars (natChars n) = some n := by
  rw [parseNatChars, if_pos ⟨natChars_ne_nil n, natChars_all_digits n⟩,
    charsVal_natChars]

/-! ### The `toFixed(2)` / parse round trip -/

theorem takeWhile_append_all {p : Char → Bool} :
    ∀ l₁ l₂ : List Char, (∀ c ∈ l₁, p c = true) →
      (l₁ ++ l₂).takeWhile p = l₁ ++ l₂.takeWhile p := by
  intro l₁
  induction l₁ with
  | nil => intro l₂ _; simp
  | cons c t ih =>
      intro l₂ h
      have hc : p c = true := h c (by simp)
      simp [List.takeWhile_cons, hc, ih _ fun x hx => h x (by simp [hx])]

theorem dropWhile_append_all {p : Char → Bool} :
    ∀ l₁ l₂ : List Char, (∀ c ∈ l₁, p c = true) →
      (l₁ ++ l₂).dropWhile p = l₂.dropWhile p := by
  intro l₁
  induction l₁ with
  | nil => intro l₂ _; simp
  | cons c t ih =>
      intro l₂ h
      simp only [List.cons_append, List.dropWhile_cons, h c (by simp)]
      exact ih _ fun x hx => h x (by simp [hx])

theorem natSplit_cast (n : Nat) :
    ((n / 100 : ℕ) : ℚ) + ((n % 100 : ℕ) : ℚ) / 100 = (n : ℚ) / 100 := by
  have h : (n / 100) * 100 + n % 100 = n := by omega
  field_simp
  exact_mod_cast h

theorem parsePosFixed2Chars_natChars (i m : Nat) (hm : m < 100) :
    parsePosFixed2Chars (natChars i ++ '.' :: twoDigitChars m)
      = some ((i : ℚ) + (m : ℚ) / 100) := by
  have hall : ∀ c ∈ natChars i, (c != '.') = true := by
    intro c hc
    exact digit_bne_dot (by
      have := natChars_all_digits i
      rw [List.all_eq_true] at this
      exact this c hc)
  have hdiv : m / 10 % 10 = m / 10 := Nat.mod_eq_of_lt (by omega)
  have h10 : m / 10 < 10 := by omega
  have hm10 : m % 10 < 10 := Nat.mod_lt _ (by norm_num)
  rw [parsePosFixed2Chars]
  rw [dropWhile_append_all _ _ hall, takeWhile_append_all _ _ hall]
  have hdrop : List.dropWhile (fun c => c != '.') ('.' :: twoDigitChars m)
      = '.' :: twoDigitChars m := by
    rw [List.dropWhile_cons]
    simp
  have htake : List.takeWhile (fun c => c != '.') ('.' :: twoDigitChars m)
      = [] := by
    rw [List.takeWhile_cons]
    simp
  rw [hdrop, htake, List.append_nil]
  show (match natChars i ++ '.' :: twoDigitChars m,
      '.' :: twoDigitChars m with
    | _, _ => _ : Option ℚ) = _
  simp only [twoDigitChars, parseNatChars_natChars, hdiv,
    digitVal?_digitChar h10, digitVal?_digitChar hm10]
  have hval : 10 * (m / 10) + m % 10 = m := by omega
  rw [hval]

theorem parseFixed2Chars_cons_of_ne (c : Char) (rest : List Char) (hne : c ≠ '-') :
    parseFixed2Chars (c :: rest) = parsePosFixed2Chars (c :: rest) := by
  simp [parseFixed2Chars, hne]

theorem parseFixed2Chars_minus (t : List Char) :
    parseFixed2Chars ('-' :: t) = (parsePosFixed2Chars t).map (fun q => -q) := by
  simp [parseFixed2Chars]

theorem parseFixed2_toFixed2 (x : ℚ) :
    parseFixed2 (toFixed2 x) = some (round2 x) := by
  have hmod : (jsRound (x * 100)).natAbs % 100 < 100 := Nat.mod_lt _ (by norm_num)
  have hcast : ∀ n : Nat,
      ((n / 100 : ℕ) : ℚ) + ((n % 100 : ℕ) : ℚ) / 100 = (n : ℚ) / 100 :=
    natSplit_cast
  rw [parseFixed2, toFixed2]
  show parseFixed2Chars (toFixed2Chars x) = some (round2 x)
  rw [toFixed2Chars]
  by_cases hneg : jsRound (x * 100) < 0
  · rw [if_pos hneg]
    show parseFixed2Chars ('-' ::
      (natChars ((jsRound (x * 100)).natAbs / 100) ++
        '.' :: twoDigitChars ((jsRound (x * 100)).natAbs % 100))) = _
    rw [parseFixed2Chars_minus, parsePosFixed2Chars_natChars _ _ hmod]
    rw [show ∀ (f : ℚ → ℚ) (v : ℚ), Option.map f (some v) = some (f v)
      from fun _ _ => rfl]
    rw [hcast, round2]
    congr 1
    have habs : ((jsRound (x * 100)).natAbs : ℚ) = -((jsRound (x * 100) : ℤ) : ℚ) := by
      rw [Int.cast_natAbs, abs_of_nonpos (le_of_lt hneg)]
      push_cast
      ring
    rw [habs]
    ring
  · rw [if_neg hneg, List.nil_append]
    have hne : natChars ((jsRound (x * 100)).natAbs / 100) ≠ [] := natChars_ne_nil _
    obtain ⟨c0, rest0, hcr⟩ :
        ∃ c0 rest0, natChars ((jsRound (x * 100)).natAbs / 100)
          = c0 :: rest0 := by
      cases h : natChars ((jsRound (x * 100)).natAbs / 100) with
      | nil => exact absurd h hne
      | cons a b => exact ⟨a, b, rfl⟩
    have hdig : isDigitChar c0 = true := by
      have := natChars_all_digits ((jsRound (x * 100)).natAbs / 100)
      rw [hcr, List.all_cons, Bool.and_eq_true] at this
      exact this.1
    rw [hcr, List.cons_append,
      parseFixed2Chars_cons_of_ne _ _ (digit_ne_minus hdig), ← List.cons_append, ← hcr]
    rw [parsePosFixed2Chars_natChars _ _ hmod, hcast, round2]
    congr 1
    have habs : ((jsRound (x * 100)).natAbs : ℚ) = ((jsRound (x * 100) : ℤ) : ℚ) := by
      rw [Int.cast_natAbs, abs_of_nonneg (not_lt.mp hneg)]
    rw [habs]

theorem parseFixed2_toFixed2_isSome (x : ℚ) : (parseFixed2 (toFixed2 x)).isSome := by
  rw [parseFixed2_toFixed2]
  rfl

/-! ### Helper for index-independent projections of `mapIdx` -/

theorem map_mapIdx_const {α β γ : Type _} :
    ∀ (l : List α) (f : Nat → α → β) (g : β → γ) (h : α → γ),
      (∀ i a, g (f i a) = h a) → (l.mapIdx f).map g = l.map h := by
  intro l
  induction l with
  | nil => intro f g h _; simp
  | cons a t ih =>
      intro f g h hfg
      rw [List.mapIdx_cons, List.map_cons, hfg, List.map_cons,
        ih _ g h (fun i a => hfg (i + 1) a)]

/-! ### Tax-group invariants -/

theorem initialGroup_wf (isV : Bool) (line : InvoiceLine) :
    GroupWF isV (initialGroup isV line) :=
  ⟨rfl, rfl, isCents_round2 _, isCents_round2 _⟩

theorem insertLineGroup_wf {isV : Bool} :
    ∀ (gs : List TaxGroup) (g0 : TaxGroup),
      (∀ g ∈ gs, GroupWF isV g) → GroupWF isV g0 →
      ∀ g ∈ insertLineGroup gs g0, GroupWF isV g := by
  intro gs
  induction gs with
  | nil =>
      intro g0 _ h0 g hg
      rw [insertLineGroup] at hg
      simp only [List.mem_singleton] at hg
      subst hg
      exact h0
  | cons h t ih =>
      intro g0 hgs h0 g hg
      rw [insertLineGroup] at hg
      by_cases hk : h.categoryId = g0.categoryId ∧ h.percent = g0.percent
      · rw [if_pos hk] at hg
        rcases List.mem_cons.mp hg with rfl | hmem
        · obtain ⟨h1, h2, _, _⟩ := hgs h (by simp)
          exact ⟨h1, h2, isCents_round2 _, isCents_round2 _⟩
        · exact hgs _ (by simp [hmem])
      · rw [if_neg hk] at hg
        rcases List.mem_cons.mp hg with rfl | hmem
        · exact hgs _ (by simp)
        · exact ih g0 (fun g' hg' => hgs g' (by simp [hg'])) h0 g hmem

theorem groupLinesByTax_wf (isV : Bool) (lines : List InvoiceLine) :
    ∀ g ∈ groupLinesByTax lines isV, GroupWF isV g := by
  rw [groupLinesByTax]
  suffices hgen : ∀ (ls : List InvoiceLine) (acc : List TaxGroup),
      (∀ g ∈ acc, GroupWF isV g) →
      ∀ g ∈ ls.foldl (fun gs line => insertLineGroup gs (initialGroup isV line)) acc,
        GroupWF isV g by
    exact hgen lines [] (by simp)
  intro ls
  induction ls with
  | nil => intro acc h; simpa using h
  | cons l t ih =>
      intro acc h
      rw [List.foldl_cons]
      exact ih _ (insertLineGroup_wf _ _ h (initialGroup_wf isV l))

theorem insertLineGroup_sum :
    ∀ (gs : List TaxGroup) (g0 : TaxGroup),
      (∀ g ∈ gs, IsCents g.taxableAmount) → IsCents g0.taxableAmount →
      ((insertLineGroup gs g0).map TaxGroup.taxableAmount).sum
        = (gs.map TaxGroup.taxableAmount).sum + g0.taxableAmount := by
  intro gs
  induction gs with
  | nil => intro g0 _ _; simp [insertLineGroup]
  | cons h t ih =>
      intro g0 hgs h0
      rw [insertLineGroup]
      by_cases hk : h.categoryId = g0.categoryId ∧ h.percent = g0.percent
      · rw [if_pos hk]
        simp only [List.map_cons, List.sum_cons]
        rw [IsCents.round2_self ((hgs h (by simp)).add h0)]
        ring
      · rw [if_neg hk]
        simp only [List.map_cons, List.sum_cons]
        rw [ih g0 (fun g hg => hgs g (by simp [hg])) h0]
        ring

theorem groupLinesByTax_sum_taxable (isV : Bool) (lines : List InvoiceLine) :
    ((groupLinesByTax lines isV).map TaxGroup.taxableAmount).sum
      = (lines.map calculateLineExtension).sum := by
  rw [groupLinesByTax]
  suffices hgen : ∀ (ls : List InvoiceLine) (acc : List TaxGroup),
      (∀ g ∈ acc, GroupWF isV g) →
      ((ls.foldl (fun gs line => insertLineGroup gs (initialGroup isV line)) acc).map
          TaxGroup.taxableAmount).sum
        = (acc.map TaxGroup.taxableAmount).sum + (ls.map calculateLineExtension).sum by
    simpa using hgen lines [] (by simp)
  intro ls
  induction ls with
  | nil => intro acc _; simp
  | cons l t ih =>
      intro acc h
      rw [List.foldl_cons, ih _ (insertLineGroup_wf _ _ h (initialGroup_wf isV l)),
        insertLineGroup_sum acc _ (fun g hg => (h g hg).2.2.1) (isCents_round2 _)]
      simp only [List.map_cons, List.sum_cons]
      have hinit : (initialGroup isV l).taxableAmount = calculateLineExtension l := rfl
      rw [hinit]
      ring

theorem groupKey_initialGroup (isV : Bool) (line : InvoiceLine) :
    groupKey (initialGroup isV line) = lineKey isV line := rfl

theorem insertLineGroup_map_key :
    ∀ (gs : List TaxGroup) (g0 : TaxGroup),
      (insertLineGroup gs g0).map groupKey =
        if groupKey g0 ∈ gs.map groupKey then gs.map groupKey
        else gs.map groupKey ++ [groupKey g0] := by
  intro gs
  induction gs with
  | nil => intro g0; simp [insertLineGroup]
  | cons h t ih =>
      intro g0
      rw [insertLineGroup]
      by_cases hk : h.categoryId = g0.categoryId ∧ h.percent = g0.percent
      · rw [if_pos hk]
        have hkey : groupKey h = groupKey g0 := by
          rw [groupKey, groupKey, hk.1, hk.2]
        have hupd : groupKey { h with
            taxableAmount := round2 (h.taxableAmount + g0.taxableAmount)
            taxAmount := round2 (h.taxAmount + g0.taxAmount) } = groupKey h := rfl
        rw [List.map_cons, List.map_cons, hupd,
          if_pos (List.mem_cons.mpr (Or.inl hkey.symm))]
      · rw [if_neg hk]
        have hkey : groupKey h ≠ groupKey g0 := by
          intro he
          rw [groupKey, groupKey, Prod.mk.injEq] at he
          exact hk ⟨he.1, he.2⟩
        rw [List.map_cons, List.map_cons, ih g0]
        by_cases hmem : groupKey g0 ∈ t.map groupKey
        · rw [if_pos hmem, if_pos (List.mem_cons.mpr (Or.inr hmem))]
        · rw [if_neg hmem, if_neg (by
            intro hcon
            rcases List.mem_cons.mp hcon with he | hm
            · exact hkey he.symm
            · exact hmem hm), List.cons_append]

theorem groupLinesByTax_keys (isV : Bool) (lines : List InvoiceLine) :
    (groupLinesByTax lines isV).map groupKey
      = firstSeenKeys (lines.map (lineKey isV)) := by
  rw [groupLinesByTax, firstSeenKeys, List.foldl_map]
  suffices hgen : ∀ (ls : List InvoiceLine) (acc : List TaxGroup),
      ((ls.foldl (fun gs line => insertLineGroup gs (initialGroup isV line)) acc).map
          groupKey)
        = ls.foldl
            (fun ks line => if lineKey isV line ∈ ks then ks else ks ++ [lineKey isV line])
            (acc.map groupKey) by
    exact hgen lines []
  intro ls
  induction ls with
  | nil => intro acc; rfl
  | cons l t ih =>
      intro acc
      rw [List.foldl_cons, List.foldl_cons, ih, insertLineGroup_map_key,
        groupKey_initialGroup]

theorem firstSeen_foldl_nodup :
    ∀ (ks acc : List (String × ℚ)), acc.Nodup →
      (ks.foldl (fun a k => if k ∈ a then a else a ++ [k]) acc).Nodup := by
  intro ks
  induction ks with
  | nil => intro acc h; simpa using h
  | cons k t ih =>
      intro acc h
      rw [List.foldl_cons]
      by_cases hk : k ∈ acc
      · rw [if_pos hk]; exact ih acc h
      · rw [if_neg hk]
        refine ih _ ?_
        rw [List.nodup_append]
        exact ⟨h, List.nodup_singleton k, by simpa using hk⟩

theorem firstSeen_foldl_mem :
    ∀ (ks acc : List (String × ℚ)) (x : String × ℚ),
      x ∈ ks.foldl (fun a k => if k ∈ a then a else a ++ [k]) acc ↔ x ∈ acc ∨ x ∈ ks := by
  intro ks
  induction ks with
  | nil => intro acc x; simp
  | cons k t ih =>
      intro acc x
      rw [List.foldl_cons]
      by_cases hk : k ∈ acc
      · rw [if_pos hk, ih]
        constructor
        · rintro (hx | hx)
          · exact Or.inl hx
          · exact Or.inr (by simp [hx])
        · rintro (hx | hx)
          · exact Or.inl hx
          · rcases List.mem_cons.mp hx with rfl | hx
            · exact Or.inl hk
            · exact Or.inr hx
      · rw [if_neg hk, ih]
        simp only [List.mem_append, List.mem_singleton, List.mem_cons]
        tauto

theorem firstSeenKeys_nodup {ks : List (String × ℚ)} : (firstSeenKeys ks).Nodup := by
  rw [firstSeenKeys]
  exact firstSeen_foldl_nodup ks [] List.nodup_nil

theorem mem_firstSeenKeys {ks : List (String × ℚ)} {x : String × ℚ} :
    x ∈ firstSeenKeys ks ↔ x ∈ ks := by
  rw [firstSeenKeys]
  constructor
  · intro h
    rcases (firstSeen_foldl_mem ks [] x).mp h with h | h
    · simp at h
    · exact h
  · intro h
    exact (firstSeen_foldl_mem ks [] x).mpr (Or.inr h)

theorem insertLineGroup_ne_nil (gs : List TaxGroup) (g0 : TaxGroup) :
    insertLineGroup gs g0 ≠ [] := by
  cases gs with
  | nil => simp [insertLineGroup]
  | cons h t =>
      rw [insertLineGroup]
      split <;> simp

theorem groupFold_ne_nil (isV : Bool) :
    ∀ (ls : List InvoiceLine) (acc : List TaxGroup), acc ≠ [] →
      ls.foldl (fun gs line => insertLineGroup gs (initialGroup isV line)) acc ≠ [] := by
  intro ls
  induction ls with
  | nil => intro acc h; simpa using h
  | cons l t ih =>
      intro acc _
      rw [List.foldl_cons]
      exact ih _ (insertLineGroup_ne_nil _ _)

theorem groupLinesByTax_ne_nil (isV : Bool) {lines : List InvoiceLine}
    (h : lines ≠ []) : groupLinesByTax lines isV ≠ [] := by
  cases lines with
  | nil => exact absurd rfl h
  | cons l ls =>
      rw [groupLinesByTax, List.foldl_cons]
      exact groupFold_ne_nil isV ls _ (insertLineGroup_ne_nil _ _)

/-! ### Concretely evaluated helper facts (the Batteries rational operations
are `irreducible` by default; this section restores reducibility locally so
that `decide` can evaluate them) -/

section

attribute [local semireducible] Rat.ofScientific Rat.mul Rat.add Rat.inv Rat.sub

theorem round2_zero : round2 0 = 0 := by decide

theorem toFixed2_zero : toFixed2 0 = "0.00" := by decide

theorem toFixed2_nineteen : toFixed2 19 = "19.00" := by decide

theorem parseFixed2_zero_str : parseFixed2 "0.00" = some 0 := by decide

theorem round2_example_price : round2 (33.333333 : ℚ) = 33.33 := by decide

end

/-! ### Build / generate facade lemmas -/

theorem buildInvoiceXml_ok_iff {input : InvoiceInput} {doc : InvoiceXml} :
    buildInvoiceXml (some input) = .ok doc ↔
      validateInvoiceInput (some input) = .ok () ∧ doc = assembleInvoice input := by
  cases hv : validateInvoiceInput (some input) with
  | error e => simp [buildInvoiceXml, hv]
  | ok u => cases u; simp [buildInvoiceXml, hv, eq_comm]

theorem buildInvoiceXml_error {input : Option InvoiceInput} {e : AnafSdkError}
    (h : validateInvoiceInput input = .error e) :
    buildInvoiceXml input = .error e := by
  cases input <;> simp [buildInvoiceXml, h]

theorem buildInvoiceXml_cases (input : Option InvoiceInput) :
    (∃ inp doc, input = some inp ∧ buildInvoiceXml input = .ok doc ∧
        doc = assembleInvoice inp) ∨
      ∃ e, buildInvoiceXml input = .error e ∧
        validateInvoiceInput input = .error e := by
  cases input with
  | none => exact Or.inr ⟨_, rfl, rfl⟩
  | some inp =>
      cases hv : validateInvoiceInput (some inp) with
      | error e => exact Or.inr ⟨e, buildInvoiceXml_error hv, rfl⟩
      | ok u =>
          cases u
          exact Or.inl ⟨inp, assembleInvoice inp,
            rfl, buildInvoiceXml_ok_iff.mpr ⟨hv, rfl⟩, rfl⟩

theorem generateInvoiceXml_ok_iff {input : Option InvoiceInput} {doc : InvoiceXml} :
    generateInvoiceXml input = .ok doc ↔ buildInvoiceXml input = .ok doc := by
  cases hb : buildInvoiceXml input <;> simp [generateInvoiceXml, tryCatch, hb]

theorem generateInvoiceXml_wraps {input : Option InvoiceInput} {e : AnafSdkError}
    (h : buildInvoiceXml input = .error e) :
    generateInvoiceXml input
      = .error (.validation ("Failed to generate invoice XML: " ++ e.message)) := by
  simp [generateInvoiceXml, tryCatch, h]

theorem generateInvoiceXml_error_shape {input : Option InvoiceInput}
    {e : AnafSdkError} (h : generateInvoiceXml input = .error e) :
    ∃ e0, buildInvoiceXml input = .error e0 ∧
      e = .validation ("Failed to generate invoice XML: " ++ e0.message) := by
  cases hb : buildInvoiceXml input with
  | ok d => simp [generateInvoiceXml, tryCatch, hb] at h
  | error e0 =>
      refine ⟨e0, rfl, ?_⟩
      rw [generateInvoiceXml_wraps hb] at h
      exact (Except.error.injEq _ _).mp h |>.symm

/-! ### Projections of the assembled document -/

theorem assembleInvoice_invoiceLines (input : InvoiceInput) :
    (assembleInvoice input).invoiceLines
      = (input.lines.getD []).mapIdx
          (fun index line =>
            buildInvoiceLineXml (effectiveIsSupplierVatPayer input) index line) := rfl

theorem assembleInvoice_taxSubtotals_of_ne_nil {input : InvoiceInput}
    (h : input.lines.getD [] ≠ []) :
    (assembleInvoice input).taxSubtotals
      = (groupLinesByTax (input.lines.getD [])
          (effectiveIsSupplierVatPayer input)).map buildTaxSubtotal := by
  have hlen : 0 < (input.lines.getD []).length := List.length_pos.mpr h
  have hglen : 0 < (groupLinesByTax (input.lines.getD [])
      (effectiveIsSupplierVatPayer input)).length :=
    List.length_pos.mpr (groupLinesByTax_ne_nil _ h)
  simp [assembleInvoice, hlen, hglen]

theorem assembleInvoice_taxSubtotals_of_nil {input : InvoiceInput}
    (h : input.lines.getD [] = []) :
    (assembleInvoice input).taxSubtotals = [defaultTaxSubtotal] := by
  simp [assembleInvoice, h]

theorem assembleInvoice_lineExtensionTotal_of_ne_nil {input : InvoiceInput}
    (h : input.lines.getD [] ≠ []) :
    (assembleInvoice input).legalMonetaryTotal.lineExtensionAmount
      = toFixed2 (((groupLinesByTax (input.lines.getD [])
          (effectiveIsSupplierVatPayer input)).map TaxGroup.taxableAmount).sum) := by
  have hlen : 0 < (input.lines.getD []).length := List.length_pos.mpr h
  simp [assembleInvoice, hlen]

theorem assembleInvoice_lmt_of_nil {input : InvoiceInput}
    (h : input.lines.getD [] = []) :
    (assembleInvoice input).legalMonetaryTotal
      = { lineExtensionAmount := "0.00", taxExclusiveAmount := "0.00",
          taxInclusiveAmount := "0.00", payableAmount := "0.00" } := by
  have hadd : (0 : ℚ) + 0 = 0 := by norm_num
  simp [assembleInvoice, h, hadd, round2_zero, toFixed2_zero]

theorem assembleInvoice_lmt_shape (input : InvoiceInput) :
    ∃ s g : ℚ,
      (assembleInvoice input).legalMonetaryTotal
        = { lineExtensionAmount := toFixed2 s, taxExclusiveAmount := toFixed2 s,
            taxInclusiveAmount := toFixed2 g, payableAmount := toFixed2 g } :=
  ⟨_, _, rfl⟩

theorem assembleInvoice_taxAmountTotal_shape (input : InvoiceInput) :
    ∃ t : ℚ, (assembleInvoice input).taxAmountTotal = toFixed2 t :=
  ⟨_, rfl⟩

/-! ### Validator congruence: validation only inspects the blank-tests of
the string fields and the remaining fields directly -/

theorem validateAddress_congr (a b : Address) (role : String)
    (h1 : isBlank a.street = isBlank b.street)
    (h2 : isBlank a.city = isBlank b.city)
    (h3 : isBlank a.postalZone = isBlank b.postalZone) :
    validateAddress a role = validateAddress b role := by
  unfold validateAddress
  rw [h1, h2, h3]

theorem validateParty_congr (a b : Party) (role : String)
    (h1 : isBlank a.registrationName = isBlank b.registrationName)
    (h2 : isBlank a.companyId = isBlank b.companyId)
    (h3 : a.address = b.address) :
    validateParty a role = validateParty b role := by
  unfold validateParty
  rw [h1, h2, h3]

theorem validateLine_congr (a b : InvoiceLine) (i : Nat)
    (h1 : isBlank a.description = isBlank b.description)
    (h2 : a.quantity = b.quantity)
    (h3 : a.unitPrice = b.unitPrice)
    (h4 : a.taxPercent = b.taxPercent) :
    validateLine a i = validateLine b i := by
  unfold validateLine
  rw [h1, h2, h3, h4]

theorem validateInvoiceInput_congr (a b : InvoiceInput)
    (h1 : isBlank a.invoiceNumber = isBlank b.invoiceNumber)
    (h2 : a.issueDate.isNone = b.issueDate.isNone)
    (h3 : a.supplier = b.supplier)
    (h4 : a.customer = b.customer)
    (h5 : a.lines = b.lines) :
    validateInvoiceInput (some a) = validateInvoiceInput (some b) := by
  simp only [validateInvoiceInput]
  rw [h1, h2, h3, h4, h5]

/-! ### Claim theorems -/

section

attribute [local semireducible] Rat.ofScientific Rat.mul Rat.add Rat.inv Rat.sub

/-- C1: for every invoice line of a successfully built document, the emitted
LineExtensionAmount equals `toFixed2 (round2 (quantity * round2 unitPrice))`
— the unit price is rounded to 2 decimals before multiplication and the
product rounded again — and for a line with quantity 3, unit price 33.333333
the emitted string is `"99.99"`, not `"100.00"`. -/
theorem c1_two_stage_rounding :
    (∀ (input : InvoiceInput) (doc : InvoiceXml),
        buildInvoiceXml (some input) = .ok doc →
        doc.invoiceLines.map InvoiceLineXml.lineExtensionAmount
          = (input.lines.getD []).map
              (fun line => toFixed2 (round2 (line.quantity * round2 line.unitPrice)))) ∧
    (buildInvoiceXml (some exInput)).map
        (fun d => d.invoiceLines.map InvoiceLineXml.lineExtensionAmount)
      = .ok ["99.99"] ∧ ("99.99" : String) ≠ "100.00" := by
  refine ⟨?_, by decide, by decide⟩
  intro input doc h
  obtain ⟨-, rfl⟩ := buildInvoiceXml_ok_iff.mp h
  rw [assembleInvoice_invoiceLines]
  exact map_mapIdx_const _ _ _ _ (fun i a => rfl)

/-- C1 witness: the general part applied to the concrete input `exInput`. -/
theorem c1_two_stage_rounding_witness :
    (assembleInvoice exInput).invoiceLines.map InvoiceLineXml.lineExtensionAmount
      = (exInput.lines.getD []).map
          (fun line => toFixed2 (round2 (line.quantity * round2 line.unitPrice))) :=
  c1_two_stage_rounding.1 exInput (assembleInvoice exInput) (by decide)

/-- C2: the tax category of every group and of every emitted line follows
the same rule — `"O"` when the supplier is not a VAT payer (whatever the
line's percent), else `"S"` for positive percent, else `"Z"` — and the
emitted subtotals carry exactly the groups' category ids. -/
theorem c2_tax_category_rule :
    ∀ (input : InvoiceInput) (doc : InvoiceXml),
      buildInvoiceXml (some input) = .ok doc →
      (∀ g ∈ groupLinesByTax (input.lines.getD [])
          (effectiveIsSupplierVatPayer input),
          g.categoryId =
            if effectiveIsSupplierVatPayer input = false then "O"
            else if 0 < g.percent then "S" else "Z") ∧
      (doc.invoiceLines.map InvoiceLineXml.classifiedTaxCategoryId
        = (input.lines.getD []).map (fun line =>
            if effectiveIsSupplierVatPayer input = false then "O"
            else if 0 < effectiveTaxPercent line then "S" else "Z")) ∧
      (input.lines.getD [] ≠ [] →
        doc.taxSubtotals.map TaxSubtotalXml.categoryId
          = (groupLinesByTax (input.lines.getD [])
              (effectiveIsSupplierVatPayer input)).map TaxGroup.categoryId) := by
  intro input doc h
  obtain ⟨-, rfl⟩ := buildInvoiceXml_ok_iff.mp h
  refine ⟨?_, ?_, ?_⟩
  · intro g hg
    rw [(groupLinesByTax_wf _ _ g hg).1]
    cases effectiveIsSupplierVatPayer input <;> simp [taxCategoryId]
  · rw [assembleInvoice_invoiceLines]
    apply map_mapIdx_const
    intro i a
    show taxCategoryId (effectiveIsSupplierVatPayer input) (effectiveTaxPercent a) = _
    cases effectiveIsSupplierVatPayer input <;> simp [taxCategoryId]
  · intro hne
    rw [assembleInvoice_taxSubtotals_of_ne_nil hne, List.map_map]
    rfl

/-- C2 witness: the per-line rule applied to the concrete non-VAT-payer
input (every line classified `"O"`). -/
theorem c2_tax_category_rule_witness :
    (assembleInvoice exInputNoVat).invoiceLines.map
        InvoiceLineXml.classifiedTaxCategoryId
      = (exInputNoVat.lines.getD []).map (fun line =>
          if effectiveIsSupplierVatPayer exInputNoVat = false then "O"
          else if 0 < effectiveTaxPercent line then "S" else "Z") :=
  (c2_tax_category_rule exInputNoVat (assembleInvoice exInputNoVat)
    (by decide)).2.1

/-- C8: when `isSupplierVatPayer` is absent it resolves to "supplier has a
non-empty VAT number"; an explicit value is used as given; the resolved flag
drives every emitted line's classified tax category. -/
theorem c8_vat_payer_default :
    ∀ input : InvoiceInput,
      (∀ b, input.isSupplierVatPayer = some b →
        effectiveIsSupplierVatPayer input = b) ∧
      (input.isSupplierVatPayer = none →
        (effectiveIsSupplierVatPayer input = true ↔
          ∃ p v, input.supplier = some p ∧ p.vatNumber = some v ∧ v ≠ "")) ∧
      (∀ doc, buildInvoiceXml (some input) = .ok doc →
        doc.invoiceLines.map InvoiceLineXml.classifiedTaxCategoryId
          = (input.lines.getD []).map (fun line =>
              taxCategoryId (effectiveIsSupplierVatPayer input)
                (effectiveTaxPercent line))) := by
  intro input
  refine ⟨?_, ?_, ?_⟩
  · intro b hb
    rw [effectiveIsSupplierVatPayer, hb]
  · intro hnone
    rw [effectiveIsSupplierVatPayer, hnone]
    cases hs : input.supplier with
    | none => simp [jsTruthyStr, Option.bind]
    | some p =>
        cases hv : p.vatNumber with
        | none => simp [jsTruthyStr, Option.bind, hv]
        | some v => simp [jsTruthyStr, Option.bind, hv, bne_iff_ne]
  · intro doc h
    obtain ⟨-, rfl⟩ := buildInvoiceXml_ok_iff.mp h
    rw [assembleInvoice_invoiceLines]
    exact map_mapIdx_const _ _ _ _ (fun i a => rfl)

/-- C8 witness: the default resolution and the per-line use of the resolved
flag at the concrete input `exInput` (flag absent, VAT number present). -/
theorem c8_vat_payer_default_witness :
    (effectiveIsSupplierVatPayer exInput = true ↔
      ∃ p v, exInput.supplier = some p ∧ p.vatNumber = some v ∧ v ≠ "") ∧
    (assembleInvoice exInput).invoiceLines.map
        InvoiceLineXml.classifiedTaxCategoryId
      = (exInput.lines.getD []).map (fun line =>
          taxCategoryId (effectiveIsSupplierVatPayer exInput)
            (effectiveTaxPercent line)) :=
  ⟨(c8_vat_payer_default exInput).2.1 (by decide),
   (c8_vat_payer_default exInput).2.2 (assembleInvoice exInput) (by decide)⟩

/-- C10: a tax subtotal carries an exemption-reason code iff its category is
`"O"`, and the code is always `"VATEX-EU-O"`. -/
theorem c10_exemption_reason_iff :
    ∀ (input : InvoiceInput) (doc : InvoiceXml),
      buildInvoiceXml (some input) = .ok doc →
      ∀ st ∈ doc.taxSubtotals,
        (st.exemptionReasonCode.isSome = true ↔ st.categoryId = "O") ∧
        (st.exemptionReasonCode = none ∨
          st.exemptionReasonCode = some "VATEX-EU-O") := by
  intro input doc h st hst
  obtain ⟨-, rfl⟩ := buildInvoiceXml_ok_iff.mp h
  by_cases hnil : input.lines.getD [] = []
  · rw [assembleInvoice_taxSubtotals_of_nil hnil] at hst
    simp only [List.mem_singleton] at hst
    subst hst
    exact ⟨by simp [defaultTaxSubtotal], Or.inl rfl⟩
  · rw [assembleInvoice_taxSubtotals_of_ne_nil hnil] at hst
    obtain ⟨g, hg, rfl⟩ := List.mem_map.mp hst
    obtain ⟨hcat, hex, -, -⟩ := groupLinesByTax_wf _ _ g hg
    cases hb : effectiveIsSupplierVatPayer input
    · rw [hb] at hcat hex
      simp only [exemptionReasonFor, taxCategoryId, Bool.not_false, Bool.not_true,
        if_true, if_false, ite_true, ite_false] at hex hcat
      constructor
      · simp [buildTaxSubtotal, hex, hcat]
      · right
        simp [buildTaxSubtotal, hex]
    · rw [hb] at hcat hex
      simp only [exemptionReasonFor, taxCategoryId, Bool.not_false, Bool.not_true,
        if_true, if_false, ite_true, ite_false] at hex hcat
      constructor
      · simp only [buildTaxSubtotal, hex]
        constructor
        · intro hfalse
          simp at hfalse
        · intro hO
          rw [hcat] at hO
          by_cases hp : (0 : ℚ) < g.percent <;> simp [hp] at hO
      · left
        simp [buildTaxSubtotal, hex]

/-- C10 witness: applied to the concrete non-VAT-payer input, whose
subtotals all carry category `"O"` and the code `"VATEX-EU-O"`. -/
theorem c10_exemption_reason_iff_witness :
    ((assembleInvoice exInputNoVat).taxSubtotals.head?.map
        (fun st => (st.exemptionReasonCode, st.categoryId)))
      = some (some "VATEX-EU-O", "O") ∧
    ∀ st ∈ (assembleInvoice exInputNoVat).taxSubtotals,
      (st.exemptionReasonCode.isSome = true ↔ st.categoryId = "O") :=
  ⟨by decide,
   fun st hst =>
     (c10_exemption_reason_iff exInputNoVat (assembleInvoice exInputNoVat)
       (by decide) st hst).1⟩

end

/-- C6: an input whose `lines` is the empty array passes validation (it is
not an error) and builds a document with exactly the synthetic zero-valued
`"S"` subtotal and zero monetary totals. -/
theorem c6_empty_lines :
    ∀ input : InvoiceInput,
      input.lines = some [] →
      isBlank input.invoiceNumber = false →
      input.issueDate.isNone = false →
      ∀ s, input.supplier = some s → validateParty s "Supplier" = .ok () →
      ∀ c, input.customer = some c → validateParty c "Customer" = .ok () →
      buildInvoiceXml (some input) = .ok (assembleInvoice input) ∧
      (assembleInvoice input).taxSubtotals
        = [{ taxableAmount := "0.00", taxAmount := "0.00", categoryId := "S",
             percent := "0.00", exemptionReasonCode := none }] ∧
      (assembleInvoice input).legalMonetaryTotal.lineExtensionAmount = "0.00" ∧
      (assembleInvoice input).legalMonetaryTotal.payableAmount = "0.00" := by
  intro input hlines hnum hdate s hs hsv c hc hcv
  have hval : validateInvoiceInput (some input) = .ok () := by
    simp only [validateInvoiceInput, hnum, hdate, hs, hsv, hc, hcv, hlines]
    simp [validateLines]
  have hnil : input.lines.getD [] = [] := by rw [hlines]; rfl
  refine ⟨buildInvoiceXml_ok_iff.mpr ⟨hval, rfl⟩, ?_, ?_, ?_⟩
  · rw [assembleInvoice_taxSubtotals_of_nil hnil]
    rfl
  · rw [assembleInvoice_lmt_of_nil hnil]
  · rw [assembleInvoice_lmt_of_nil hnil]

/-- C6 witness: the theorem applied to the concrete empty-lines input. -/
theorem c6_empty_lines_witness :
    buildInvoiceXml (some exInputNoLines) = .ok (assembleInvoice exInputNoLines) ∧
    (assembleInvoice exInputNoLines).legalMonetaryTotal.payableAmount = "0.00" :=
  ⟨(c6_empty_lines exInputNoLines rfl (by decide) rfl exSupplier rfl (by decide)
      exCustomer rfl (by decide)).1,
   (c6_empty_lines exInputNoLines rfl (by decide) rfl exSupplier rfl (by decide)
      exCustomer rfl (by decide)).2.2.2⟩

/-- C7: `generateInvoiceXml` either returns exactly the built document or a
validation-class error wrapping the underlying failure's message with
`"Failed to generate invoice XML: "`; a validation failure always surfaces
this way (no other error shape, no partial document). -/
theorem c7_generate_wraps_errors :
    ∀ input : Option InvoiceInput,
      (∀ doc, generateInvoiceXml input = .ok doc ↔
        buildInvoiceXml input = .ok doc) ∧
      (∀ e, generateInvoiceXml input = .error e →
        ∃ e0, buildInvoiceXml input = .error e0 ∧
          e = .validation ("Failed to generate invoice XML: " ++ e0.message)) ∧
      (∀ e0, validateInvoiceInput input = .error e0 →
        generateInvoiceXml input
          = .error (.validation
              ("Failed to generate invoice XML: " ++ e0.message))) := by
  intro input
  refine ⟨fun doc => generateInvoiceXml_ok_iff,
    fun e he => generateInvoiceXml_error_shape he, ?_⟩
  intro e0 h
  exact generateInvoiceXml_wraps (buildInvoiceXml_error h)

/-- C7 witness: the wrapping applied to the missing-input case. -/
theorem c7_generate_wraps_errors_witness :
    generateInvoiceXml none
      = .error (.validation
          ("Failed to generate invoice XML: " ++
            (AnafSdkError.validation "Invoice input data is required").message)) :=
  (c7_generate_wraps_errors none).2.2 _ rfl

/-- C9: a required string field that is present but whitespace-only is
treated exactly like an absent one: validation takes the same branch and
raises the same "required" error. -/
theorem c9_whitespace_required_fields :
    (∀ (input : InvoiceInput) s, input.invoiceNumber = some s →
      trimsToEmpty s = true →
      validateInvoiceInput (some input)
          = validateInvoiceInput (some { input with invoiceNumber := none }) ∧
        validateInvoiceInput (some input)
          = .error (.validation "Invoice number is required")) ∧
    (∀ (p : Party) (role : String) s, p.registrationName = some s →
      trimsToEmpty s = true →
      validateParty p role = validateParty { p with registrationName := none } role ∧
        validateParty p role
          = .error (.validation (role ++ " registration name is required"))) ∧
    (∀ (p : Party) (role : String) s, p.companyId = some s →
      trimsToEmpty s = true →
      validateParty p role = validateParty { p with companyId := none } role) ∧
    (∀ (a : Address) (role : String) s, a.street = some s →
      trimsToEmpty s = true →
      validateAddress a role = validateAddress { a with street := none } role ∧
        validateAddress a role
          = .error (.validation (role ++ " street address is required"))) ∧
    (∀ (a : Address) (role : String) s, a.city = some s →
      trimsToEmpty s = true →
      validateAddress a role = validateAddress { a with city := none } role) ∧
    (∀ (a : Address) (role : String) s, a.postalZone = some s →
      trimsToEmpty s = true →
      validateAddress a role = validateAddress { a with postalZone := none } role) ∧
    (∀ (line : InvoiceLine) (i : Nat) s, line.description = some s →
      trimsToEmpty s = true →
      validateLine line i = validateLine { line with description := none } i ∧
        validateLine line i
          = .error (.validation
              ("Line " ++ toString (i + 1) ++ ": Description is required"))) := by
  refine ⟨?_, ?_, ?_, ?_, ?_, ?_, ?_⟩
  · intro input s hs ht
    have h1 : isBlank input.invoiceNumber = true := by rw [hs]; exact ht
    constructor
    · exact validateInvoiceInput_congr _ _ (by rw [h1]; rfl) rfl rfl rfl rfl
    · simp only [validateInvoiceInput]
      rw [h1]
      simp
  · intro p role s hs ht
    have h1 : isBlank p.registrationName = true := by rw [hs]; exact ht
    constructor
    · exact validateParty_congr _ _ role (by rw [h1]; rfl) rfl rfl
    · unfold validateParty
      rw [h1]
      simp
  · intro p role s hs ht
    have h1 : isBlank p.companyId = true := by rw [hs]; exact ht
    exact validateParty_congr _ _ role rfl (by rw [h1]; rfl) rfl
  · intro a role s hs ht
    have h1 : isBlank a.street = true := by rw [hs]; exact ht
    constructor
    · exact validateAddress_congr _ _ role (by rw [h1]; rfl) rfl rfl
    · unfold validateAddress
      rw [h1]
      simp
  · intro a role s hs ht
    have h1 : isBlank a.city = true := by rw [hs]; exact ht
    exact validateAddress_congr _ _ role rfl (by rw [h1]; rfl) rfl
  · intro a role s hs ht
    have h1 : isBlank a.postalZone = true := by rw [hs]; exact ht
    exact validateAddress_congr _ _ role rfl rfl (by rw [h1]; rfl)
  · intro line i s hs ht
    have h1 : isBlank line.description = true := by rw [hs]; exact ht
    constructor
    · exact validateLine_congr _ _ i (by rw [h1]; rfl) rfl rfl rfl
    · unfold validateLine
      rw [h1]
      simp

/-- Whether one line passes validation does not depend on its position
(only the error messages mention the index). -/
theorem validateLine_ok_index {line : InvoiceLine} {i j : Nat}
    (h : validateLine line i = .ok ()) : validateLine line j = .ok () := by
  unfold validateLine at h ⊢
  split at h
  · exact absurd h (by simp)
  · next h1 =>
      split at h
      · exact absurd h (by simp)
      · next h2 =>
          split at h
          · exact absurd h (by simp)
          · next h3 =>
              rw [if_neg h1, if_neg h2, if_neg h3]
              split at h
              · next t ht =>
                  split at h
                  · exact absurd h (by simp)
                  · next h4 => rw [if_neg h4]
              · next ht => rfl

/-- The first failing line decides the result of `validateLines`, at any
starting offset. -/
theorem validateLines_append_error :
    ∀ (good : List InvoiceLine) (k : Nat) (bad : InvoiceLine)
      (rest : List InvoiceLine) (e : AnafSdkError),
      (∀ l ∈ good, validateLine l 0 = .ok ()) →
      validateLine bad (k + good.length) = .error e →
      validateLines (good ++ bad :: rest) k = .error e := by
  intro good
  induction good with
  | nil =>
      intro k bad rest e _ hbad
      rw [List.length_nil, Nat.add_zero] at hbad
      rw [List.nil_append]
      simp only [validateLines, hbad]
  | cons g t ih =>
      intro k bad rest e hgood hbad
      have hg : validateLine g k = .ok () :=
        validateLine_ok_index (hgood g (by simp))
      rw [List.cons_append]
      simp only [validateLines, hg]
      have harith : k + (g :: t).length = (k + 1) + t.length := by
        rw [List.length_cons]
        omega
      rw [harith] at hbad
      exact ih (k + 1) bad rest e (fun l hl => hgood l (by simp [hl])) hbad

/-- C4: validation fails fast on the first violated constraint in the fixed
order (input, invoice number, issue date, supplier fields, customer fields,
lines array, then each line in order with 1-based indices in messages); in
particular a simultaneously missing invoice number and supplier yields the
invoice-number error. -/
theorem c4_validation_order :
    (validateInvoiceInput none
      = .error (.validation "Invoice input data is required")) ∧
    (∀ input : InvoiceInput, isBlank input.invoiceNumber = true →
      validateInvoiceInput (some input)
        = .error (.validation "Invoice number is required")) ∧
    (∀ input : InvoiceInput, isBlank input.invoiceNumber = false →
      input.issueDate.isNone = true →
      validateInvoiceInput (some input)
        = .error (.validation "Issue date is required")) ∧
    (∀ input : InvoiceInput, isBlank input.invoiceNumber = false →
      input.issueDate.isNone = false → input.supplier = none →
      validateInvoiceInput (some input)
        = .error (.validation "Supplier information is required")) ∧
    (∀ (input : InvoiceInput) (s : Party) (e : AnafSdkError),
      isBlank input.invoiceNumber = false → input.issueDate.isNone = false →
      input.supplier = some s → validateParty s "Supplier" = .error e →
      validateInvoiceInput (some input) = .error e) ∧
    (∀ (input : InvoiceInput) (s : Party),
      isBlank input.invoiceNumber = false → input.issueDate.isNone = false →
      input.supplier = some s → validateParty s "Supplier" = .ok () →
      input.customer = none →
      validateInvoiceInput (some input)
        = .error (.validation "Customer information is required")) ∧
    (∀ (input : InvoiceInput) (s c : Party) (e : AnafSdkError),
      isBlank input.invoiceNumber = false → input.issueDate.isNone = false →
      input.supplier = some s → validateParty s "Supplier" = .ok () →
      input.customer = some c → validateParty c "Customer" = .error e →
      validateInvoiceInput (some input) = .error e) ∧
    (∀ (input : InvoiceInput) (s c : Party),
      isBlank input.invoiceNumber = false → input.issueDate.isNone = false →
      input.supplier = some s → validateParty s "Supplier" = .ok () →
      input.customer = some c → validateParty c "Customer" = .ok () →
      input.lines = none →
      validateInvoiceInput (some input)
        = .error (.validation "Invoice lines array is required")) ∧
    (∀ (input : InvoiceInput) (s c : Party) (ls : List InvoiceLine),
      isBlank input.invoiceNumber = false → input.issueDate.isNone = false →
      input.supplier = some s → validateParty s "Supplier" = .ok () →
      input.customer = some c → validateParty c "Customer" = .ok () →
      input.lines = some ls →
      validateInvoiceInput (some input) = validateLines ls 0) ∧
    (∀ (p : Party) (role : String), isBlank p.registrationName = true →
      validateParty p role
        = .error (.validation (role ++ " registration name is required"))) ∧
    (∀ (p : Party) (role : String), isBlank p.registrationName = false →
      isBlank p.companyId = true →
      validateParty p role
        = .error (.validation (role ++ " company ID is required"))) ∧
    (∀ (p : Party) (role : String), isBlank p.registrationName = false →
      isBlank p.companyId = false → p.address = none →
      validateParty p role
        = .error (.validation (role ++ " address is required"))) ∧
    (∀ (a : Address) (role : String), isBlank a.street = true →
      validateAddress a role
        = .error (.validation (role ++ " street address is required"))) ∧
    (∀ (a : Address) (role : String), isBlank a.street = false →
      isBlank a.city = true →
      validateAddress a role
        = .error (.validation (role ++ " city is required"))) ∧
    (∀ (a : Address) (role : String), isBlank a.street = false →
      isBlank a.city = false → isBlank a.postalZone = true →
      validateAddress a role
        = .error (.validation (role ++ " postal zone is required"))) ∧
    (∀ (line : InvoiceLine) (i : Nat), isBlank line.description = true →
      validateLine line i
        = .error (.validation
            ("Line " ++ toString (i + 1) ++ ": Description is required"))) ∧
    (∀ (line : InvoiceLine) (i : Nat), isBlank line.description = false →
      line.quantity ≤ 0 →
      validateLine line i
        = .error (.validation
            ("Line " ++ toString (i + 1) ++ ": Quantity must be a positive number"))) ∧
    (∀ (line : InvoiceLine) (i : Nat), isBlank line.description = false →
      ¬ line.quantity ≤ 0 → line.unitPrice < 0 →
      validateLine line i
        = .error (.validation
            ("Line " ++ toString (i + 1) ++ ": Unit price must be a non-negative number"))) ∧
    (∀ (line : InvoiceLine) (i : Nat) (t : ℚ), isBlank line.description = false →
      ¬ line.quantity ≤ 0 → ¬ line.unitPrice < 0 → line.taxPercent = some t →
      (t < 0 ∨ t > 100) →
      validateLine line i
        = .error (.validation
            ("Line " ++ toString (i + 1) ++ ": Tax percent must be between 0 and 100"))) ∧
    (∀ (good : List InvoiceLine) (bad : InvoiceLine) (rest : List InvoiceLine)
        (e : AnafSdkError),
      (∀ l ∈ good, validateLine l 0 = .ok ()) →
      validateLine bad good.length = .error e →
      validateLines (good ++ bad :: rest) 0 = .error e) ∧
    validateInvoiceInput (some exInputMissing)
      = .error (.validation "Invoice number is required") := by
  refine ⟨rfl, ?_, ?_, ?_, ?_, ?_, ?_, ?_, ?_, ?_, ?_, ?_, ?_, ?_, ?_, ?_, ?_,
    ?_, ?_, ?_, by decide⟩
  · intro input h1
    simp only [validateInvoiceInput, h1]
    simp
  · intro input h1 h2
    simp only [validateInvoiceInput, h1, h2]
    simp
  · intro input h1 h2 h3
    simp only [validateInvoiceInput, h1, h2, h3]
    simp
  · intro input s e h1 h2 h3 h4
    simp only [validateInvoiceInput, h1, h2, h3, h4]
    simp
  · intro input s h1 h2 h3 h4 h5
    simp only [validateInvoiceInput, h1, h2, h3, h4, h5]
    simp
  · intro input s c e h1 h2 h3 h4 h5 h6
    simp only [validateInvoiceInput, h1, h2, h3, h4, h5, h6]
    simp
  · intro input s c h1 h2 h3 h4 h5 h6 h7
    simp only [validateInvoiceInput, h1, h2, h3, h4, h5, h6, h7]
    simp
  · intro input s c ls h1 h2 h3 h4 h5 h6 h7
    simp only [validateInvoiceInput, h1, h2, h3, h4, h5, h6, h7]
    simp
  · intro p role h1
    unfold validateParty
    rw [h1]
    simp
  · intro p role h1 h2
    unfold validateParty
    rw [h1, h2]
    simp
  · intro p role h1 h2 h3
    unfold validateParty
    rw [h1, h2, h3]
    simp
  · intro a role h1
    unfold validateAddress
    rw [h1]
    simp
  · intro a role h1 h2
    unfold validateAddress
    rw [h1, h2]
    simp
  · intro a role h1 h2 h3
    unfold validateAddress
    rw [h1, h2, h3]
    simp
  · intro line i h1
    unfold validateLine
    rw [h1]
    simp
  · intro line i h1 h2
    unfold validateLine
    rw [h1]
    simp [h2]
  · intro line i h1 h2 h3
    unfold validateLine
    rw [h1]
    simp [h2, h3]
  · intro line i t h1 h2 h3 h4 h5
    unfold validateLine
    rw [h1, h4]
    simp [h2, h3, h5]
  · intro good bad rest e hgood hbad
    have hbad0 : validateLine bad (0 + good.length) = .error e := by
      rw [Nat.zero_add]
      exact hbad
    exact validateLines_append_error good 0 bad rest e hgood hbad0

/-- C4 witness: the combined missing-number/missing-supplier input names the
invoice number, and a line error carries the 1-based index. -/
theorem c4_validation_order_witness :
    validateInvoiceInput (some exInputMissing)
        = .error (.validation "Invoice number is required") ∧
      validateLine { exLine1 with description := some " " } 2
        = .error (.validation "Line 3: Description is required") := by
  obtain ⟨-, h2, -, -, -, -, -, -, -, -, -, -, -, -, -, h16, -⟩ :=
    c4_validation_order
  exact ⟨h2 exInputMissing (by decide), h16 _ 2 (by decide)⟩

/-- Parsing the emitted subtotal taxable amounts recovers exactly the group
amounts (which are whole numbers of hundredths). -/
theorem mapM_parse_subtotals :
    ∀ groups : List TaxGroup, (∀ g ∈ groups, IsCents g.taxableAmount) →
      (groups.map buildTaxSubtotal).mapM (fun st => parseFixed2 st.taxableAmount)
        = some (groups.map TaxGroup.taxableAmount) := by
  intro groups
  induction groups with
  | nil => intro _; rfl
  | cons g t ih =>
      intro h
      rw [List.map_cons, List.map_cons, List.mapM_cons]
      have hg : parseFixed2 (buildTaxSubtotal g).taxableAmount
          = some g.taxableAmount := by
        show parseFixed2 (toFixed2 g.taxableAmount) = _
        rw [parseFixed2_toFixed2, (h g (by simp)).round2_self]
      rw [hg, ih (fun x hx => h x (by simp [hx]))]
      rfl

/-- C3: the tax groups partition the lines — one group per distinct
(category, percent) key, in first-seen order, every line contributing to
exactly one group — and the tax-subtotal taxable amounts, parsed back,
sum exactly to the parsed LineExtensionAmount total. -/
theorem c3_tax_groups_partition :
    ∀ (input : InvoiceInput) (doc : InvoiceXml),
      buildInvoiceXml (some input) = .ok doc →
      input.lines.getD [] ≠ [] →
      ((groupLinesByTax (input.lines.getD [])
          (effectiveIsSupplierVatPayer input)).map groupKey
        = firstSeenKeys ((input.lines.getD []).map
            (lineKey (effectiveIsSupplierVatPayer input)))) ∧
      (∀ line ∈ input.lines.getD [],
        ∃! g, g ∈ groupLinesByTax (input.lines.getD [])
            (effectiveIsSupplierVatPayer input) ∧
          groupKey g = lineKey (effectiveIsSupplierVatPayer input) line) ∧
      (((groupLinesByTax (input.lines.getD [])
          (effectiveIsSupplierVatPayer input)).map TaxGroup.taxableAmount).sum
        = ((input.lines.getD []).map calculateLineExtension).sum) ∧
      (∃ vals total,
        doc.taxSubtotals.mapM (fun st => parseFixed2 st.taxableAmount)
          = some vals ∧
        parseFixed2 doc.legalMonetaryTotal.lineExtensionAmount = some total ∧
        vals.sum = total) := by
  intro input doc h hne
  obtain ⟨-, rfl⟩ := buildInvoiceXml_ok_iff.mp h
  refine ⟨groupLinesByTax_keys _ _, ?_, groupLinesByTax_sum_taxable _ _, ?_⟩
  · intro line hline
    have hmem : lineKey (effectiveIsSupplierVatPayer input) line
        ∈ (groupLinesByTax (input.lines.getD [])
            (effectiveIsSupplierVatPayer input)).map groupKey := by
      rw [groupLinesByTax_keys, mem_firstSeenKeys]
      exact List.mem_map_of_mem _ hline
    obtain ⟨g, hg, hgk⟩ := List.mem_map.mp hmem
    refine ⟨g, ⟨hg, hgk⟩, ?_⟩
    rintro g' ⟨hg', hgk'⟩
    have hnodup : ((groupLinesByTax (input.lines.getD [])
        (effectiveIsSupplierVatPayer input)).map groupKey).Nodup := by
      rw [groupLinesByTax_keys]
      exact firstSeenKeys_nodup
    exact List.inj_on_of_nodup_map hnodup hg' hg (hgk'.trans hgk.symm)
  · have hcents : ∀ g ∈ groupLinesByTax (input.lines.getD [])
        (effectiveIsSupplierVatPayer input), IsCents g.taxableAmount :=
      fun g hg => (groupLinesByTax_wf _ _ g hg).2.2.1
    refine ⟨(groupLinesByTax (input.lines.getD [])
        (effectiveIsSupplierVatPayer input)).map TaxGroup.taxableAmount,
      ((groupLinesByTax (input.lines.getD [])
        (effectiveIsSupplierVatPayer input)).map TaxGroup.taxableAmount).sum,
      ?_, ?_, rfl⟩
    · rw [assembleInvoice_taxSubtotals_of_ne_nil hne]
      exact mapM_parse_subtotals _ hcents
    · rw [assembleInvoice_lineExtensionTotal_of_ne_nil hne, parseFixed2_toFixed2]
      congr 1
      exact IsCents.round2_self (isCents_sum (by
        intro x hx
        obtain ⟨g, hg, rfl⟩ := List.mem_map.mp hx
        exact hcents g hg))

/-- C5 (amended): every monetary amount field and percent field of the
emitted document is in strict fixed two-decimal format (in particular the
integer percent 19 is emitted as "19.00"); the invoiced quantity is the
plain number-to-string rendering and is exempt. -/
theorem c5_amount_fields_two_decimal :
    ∀ (input : InvoiceInput) (doc : InvoiceXml),
      buildInvoiceXml (some input) = .ok doc →
      (parseFixed2 doc.taxAmountTotal).isSome = true ∧
      (∀ st ∈ doc.taxSubtotals,
        (parseFixed2 st.taxableAmount).isSome = true ∧
        (parseFixed2 st.taxAmount).isSome = true ∧
        (parseFixed2 st.percent).isSome = true) ∧
      (parseFixed2 doc.legalMonetaryTotal.lineExtensionAmount).isSome = true ∧
      (parseFixed2 doc.legalMonetaryTotal.taxExclusiveAmount).isSome = true ∧
      (parseFixed2 doc.legalMonetaryTotal.taxInclusiveAmount).isSome = true ∧
      (parseFixed2 doc.legalMonetaryTotal.payableAmount).isSome = true ∧
      (∀ ln ∈ doc.invoiceLines,
        (parseFixed2 ln.lineExtensionAmount).isSome = true ∧
        (parseFixed2 ln.classifiedTaxPercent).isSome = true ∧
        (parseFixed2 ln.priceAmount).isSome = true) ∧
      toFixed2 19 = "19.00" := by
  intro input doc h
  obtain ⟨-, rfl⟩ := buildInvoiceXml_ok_iff.mp h
  obtain ⟨sv, gv, hlmt⟩ := assembleInvoice_lmt_shape input
  obtain ⟨tv, htat⟩ := assembleInvoice_taxAmountTotal_shape input
  refine ⟨by rw [htat]; exact parseFixed2_toFixed2_isSome tv, ?_,
    by rw [hlmt]; exact parseFixed2_toFixed2_isSome sv,
    by rw [hlmt]; exact parseFixed2_toFixed2_isSome sv,
    by rw [hlmt]; exact parseFixed2_toFixed2_isSome gv,
    by rw [hlmt]; exact parseFixed2_toFixed2_isSome gv,
    ?_, toFixed2_nineteen⟩
  · intro st hst
    by_cases hnil : input.lines.getD [] = []
    · rw [assembleInvoice_taxSubtotals_of_nil hnil] at hst
      simp only [List.mem_singleton] at hst
      subst hst
      refine ⟨?_, ?_, ?_⟩ <;>
        simp [defaultTaxSubtotal, parseFixed2_zero_str]
    · rw [assembleInvoice_taxSubtotals_of_ne_nil hnil] at hst
      obtain ⟨g, -, rfl⟩ := List.mem_map.mp hst
      exact ⟨parseFixed2_toFixed2_isSome _, parseFixed2_toFixed2_isSome _,
        parseFixed2_toFixed2_isSome _⟩
  · intro ln hln
    rw [assembleInvoice_invoiceLines] at hln
    obtain ⟨⟨i, hi⟩, hget⟩ := List.mem_iff_get.mp hln
    have hi' : i < (input.lines.getD []).length := by
      simpa using hi
    rw [List.get_mapIdx _ _ i hi'] at hget
    subst hget
    exact ⟨parseFixed2_toFixed2_isSome _, parseFixed2_toFixed2_isSome _,
      parseFixed2_toFixed2_isSome _⟩

/-- C9 witness: the invoice-number part applied to the concrete input whose
number is `"   "`, and the description part applied to a line whose
description is a single no-break space (U+00A0). -/
theorem c9_whitespace_required_fields_witness :
    (validateInvoiceInput (some exInputBlankNumber)
        = validateInvoiceInput
            (some { exInputBlankNumber with invoiceNumber := none }) ∧
      validateInvoiceInput (some exInputBlankNumber)
        = .error (.validation "Invoice number is required")) ∧
    (validateLine { exLine1 with description := some "\u00A0" } 0
        = validateLine { exLine1 with description := none } 0 ∧
      validateLine { exLine1 with description := some "\u00A0" } 0
        = .error (.validation "Line 1: Description is required")) :=
  ⟨c9_whitespace_required_fields.1 exInputBlankNumber "   " rfl (by decide),
   c9_whitespace_required_fields.2.2.2.2.2.2
     { exLine1 with description := some "\u00A0" } 0 "\u00A0" rfl (by decide)⟩

section

attribute [local semireducible] Rat.ofScientific Rat.mul Rat.add Rat.inv Rat.sub

/-- C5 counterexample: in the document built from `exInput` the emitted
InvoicedQuantity string of the quantity-3 line is `"3"` — a numeric output
field that is not in fixed two-decimal format (the strict two-decimal
parser rejects it, and the two-decimal rendering of 3 is `"3.00"`). -/
theorem c5_counterexample_quantity_format :
    buildInvoiceXml (some exInput) = .ok (assembleInvoice exInput) ∧
    (assembleInvoice exInput).invoiceLines.map InvoiceLineXml.invoicedQuantity
      = ["3"] ∧
    parseFixed2 "3" = none ∧
    toFixed2 3 = "3.00" ∧ ("3" : String) ≠ "3.00" :=
  ⟨by decide, by decide, by decide, by decide, by decide⟩

/-- C5 witness: the amended theorem applied to the concrete input
`exInput` (integer percent rendered `"19.00"`, line amounts parseable). -/
theorem c5_amount_fields_two_decimal_witness :
    (∀ ln ∈ (assembleInvoice exInput).invoiceLines,
      (parseFixed2 ln.lineExtensionAmount).isSome = true ∧
      (parseFixed2 ln.classifiedTaxPercent).isSome = true ∧
      (parseFixed2 ln.priceAmount).isSome = true) ∧
    toFixed2 19 = "19.00" := by
  obtain ⟨-, -, -, -, -, -, hlines, h19⟩ :=
    c5_amount_fields_two_decimal exInput (assembleInvoice exInput) (by decide)
  exact ⟨hlines, h19⟩

/-- C3 witness: the theorem applied to the concrete three-line, two-rate
input `exInputMulti`. -/
theorem c3_tax_groups_partition_witness :
    (((groupLinesByTax (exInputMulti.lines.getD [])
        (effectiveIsSupplierVatPayer exInputMulti)).map
          TaxGroup.taxableAmount).sum
      = ((exInputMulti.lines.getD []).map calculateLineExtension).sum) ∧
    (∃ vals total,
      (assembleInvoice exInputMulti).taxSubtotals.mapM
          (fun st => parseFixed2 st.taxableAmount) = some vals ∧
      parseFixed2
          (assembleInvoice exInputMulti).legalMonetaryTotal.lineExtensionAmount
        = some total ∧
      vals.sum = total) := by
  obtain ⟨-, -, hsum, hparse⟩ :=
    c3_tax_groups_partition exInputMulti (assembleInvoice exInputMulti)
      (by decide) (by decide)
  exact ⟨hsum, hparse⟩

end

end EFactura
